import Mathlib

/-!
Verification of the natural-language specification of the repository
hameed003/important-react-topics against its code.

The repository is a set of educational React examples. The embedding below
translates the state, the event handlers and the reducers of the examples
the claims talk about:

* the context-api demo (ThemeContext / AuthContext with the components
  ThemedButton, AuthButton, Navbar, App);
* the redux-thunk example of important-react-topics.wiki/redux-thunk.md
  (action types, dataReducer, the fetchData thunk);
* the click handlers of the remaining demo components (Counter from the
  reconciliation document, the useMemo demo WithUseMemo, the useCallback
  demos Parent and Search, the five CSS-toggling demos);
* a syntactic enumeration of the event handlers of the corpus with their
  triggering event, asynchrony and error-branch structure, and of the
  state pieces with their JS types, read off the source files.
-/

namespace ReactTopics

/-! ## Context-api demo: ThemeContext
Source: context-api/src/context/ThemeContext.jsx (concatenated into
components/AuthButton.jsx, lines 54-66).
`const [theme, setTheme] = useState("light")` and
`toggleTheme = () => setTheme(prev => prev === "light" ? "dark" : "light")`. -/

def themeInitial : String := "light"

def toggleTheme (prevTheme : String) : String :=
  if prevTheme = "light" then "dark" else "light"

/-- The theme values reachable from the initial useState value by clicks of
the ThemedButton (each click calls toggleTheme). -/
inductive ReachableTheme : String → Prop
  | init : ReachableTheme themeInitial
  | toggle (t : String) : ReachableTheme t → ReachableTheme (toggleTheme t)

/-! ## Context-api demo: AuthContext
Source: context-api/src/context/AuthContext.jsx lines 7-23.
`const [isAuthenticated, setIsAuthenticated] = useState(false)`,
`login = () => setIsAuthenticated(true)`,
`logout = () => setIsAuthenticated(false)`. -/

def authInitial : Bool := false

def login (_ : Bool) : Bool := true

def logout (_ : Bool) : Bool := false

/-! ## AuthButton
Source: context-api/src/components/AuthButton.jsx lines 4-25.
`onClick = isAuthenticated ? logout : login`; the label is
`isAuthenticated ? "Logout" : "Login"`. -/

def authButtonClick (isAuthenticated : Bool) : Bool :=
  if isAuthenticated then logout isAuthenticated else login isAuthenticated

def authButtonLabel (isAuthenticated : Bool) : String :=
  if isAuthenticated then "Logout" else "Login"

/-! ## The context-api app as a whole: files, components, renders
The App (second part of components/AuthButton.jsx) mounts ThemeProvider and
AuthProvider around Navbar, ThemedButton and AuthButton, so the combined
provider state is one record. Each component lives in its own source file. -/

/-- The source files of the context-api demo. -/
inductive SrcFile
  | themeContextFile
  | authContextFile
  | themedButtonFile
  | authButtonFile
  | navbarFile
  | appFile
deriving DecidableEq, Repr

/-- The combined state of the two providers mounted by App. -/
structure AppState where
  theme : String
  isAuthenticated : Bool
deriving DecidableEq, Repr

def appInitial : AppState :=
  { theme := themeInitial, isAuthenticated := authInitial }

/-- The rendered components of the context-api demo. -/
inductive Component
  | themedButton
  | authButton
  | navbar
deriving DecidableEq, Repr

/-- The file each component is defined in. -/
def Component.file : Component → SrcFile
  | .themedButton => .themedButtonFile
  | .authButton => .authButtonFile
  | .navbar => .navbarFile

/-- The context state variables and the file whose provider declares them. -/
inductive StateVar
  | themeVar
  | isAuthenticatedVar
deriving DecidableEq, Repr

def StateVar.declaredIn : StateVar → SrcFile
  | .themeVar => .themeContextFile
  | .isAuthenticatedVar => .authContextFile

/-- Effect of a click on each component.
ThemedButton (ThemedButton.jsx lines 4-22): onClick = toggleTheme.
AuthButton: onClick = isAuthenticated ? logout : login.
Navbar has no onClick. -/
def clickComponent : Component → AppState → AppState
  | .themedButton, s => { s with theme := toggleTheme s.theme }
  | .authButton, s => { s with isAuthenticated := authButtonClick s.isAuthenticated }
  | .navbar, s => s

/-- The state-dependent parts of each render, as a string.
ThemedButton renders its label with the current theme; AuthButton its
label; Navbar (Navbar.jsx, second part of ThemedButton.jsx, lines 29-46)
renders a background color from theme and a greeting from
isAuthenticated. -/
def renderComponent : Component → AppState → String
  | .themedButton, s => "Toggle Theme (Current: " ++ s.theme ++ ")"
  | .authButton, s => authButtonLabel s.isAuthenticated
  | .navbar, s =>
      (if s.theme = "light" then "#f4f4f4" else "#222") ++ "|" ++
      (if s.isAuthenticated then "Welcome, User!" else "Please log in.")

/-- The spec sentence of claim C1 as a proposition: a click on one
component never changes what a component defined in another file
renders. -/
def crossFileIsolation : Prop :=
  ∀ c r : Component, c.file ≠ r.file →
    ∀ s : AppState, renderComponent r (clickComponent c s) = renderComponent r s

/-! ## Redux-thunk example
Source: important-react-topics.wiki/redux-thunk.md. Action types (lines
47-49), the dataReducer of Step 3 (lines 115-139) and the fetchData thunk
(lines 81-92). The fetched payload is the JSON list rendered by App as
items with id and name (lines 192-194). -/

def FETCH_DATA_REQUEST : String := "FETCH_DATA_REQUEST"

def FETCH_DATA_SUCCESS : String := "FETCH_DATA_SUCCESS"

def FETCH_DATA_FAILURE : String := "FETCH_DATA_FAILURE"

/-- An element of the fetched data list: App renders item.id and
item.name. -/
structure Item where
  id : Nat
  name : String
deriving DecidableEq, Repr

/-- The reducer state: initialState is loading false, data [],
error "". -/
structure DataState where
  loading : Bool
  data : List Item
  error : String
deriving DecidableEq, Repr

def initialState : DataState := { loading := false, data := [], error := "" }

/-- Redux actions dispatched in the example. The three action creators
attach payloads as in actions.js (lines 66-78); `other` stands for any
action whose type string is not one of the three fetch constants, which
the switch of the reducer sends to its default branch. -/
inductive Action
  | fetchDataRequest
  | fetchDataSuccess (payload : List Item)
  | fetchDataFailure (payload : String)
  | other (t : String)
deriving DecidableEq, Repr

/-- The `type` field of each action object. -/
def Action.type : Action → String
  | .fetchDataRequest => FETCH_DATA_REQUEST
  | .fetchDataSuccess _ => FETCH_DATA_SUCCESS
  | .fetchDataFailure _ => FETCH_DATA_FAILURE
  | .other t => t

/-- dataReducer of redux-thunk.md lines 115-139: the switch on action.type
with spread updates, default returning state. -/
def dataReducer (state : DataState) (action : Action) : DataState :=
  match action with
  | .fetchDataRequest => { state with loading := true }
  | .fetchDataSuccess payload =>
      { state with loading := false, data := payload, error := "" }
  | .fetchDataFailure payload =>
      { state with loading := false, data := [], error := payload }
  | .other _ => state

/-- Outcome of `await fetch(...)` followed by `await response.json()` in
the thunk: either the parsed data, or a thrown error whose message the
catch branch reads. -/
inductive FetchOutcome
  | success (data : List Item)
  | failure (message : String)
deriving DecidableEq, Repr

/-- The fetchData thunk (redux-thunk.md lines 81-92) as its effect on the
store state: it dispatches fetchDataRequest, then fetchDataSuccess with
the data on a successful fetch, or fetchDataFailure with error.message in
the catch branch. -/
def fetchData (outcome : FetchOutcome) (state : DataState) : DataState :=
  let afterRequest := dataReducer state .fetchDataRequest
  match outcome with
  | .success d => dataReducer afterRequest (.fetchDataSuccess d)
  | .failure msg => dataReducer afterRequest (.fetchDataFailure msg)

/-! ## Click handlers of the remaining demo components, each on its own
local state. -/

/-- Counter of the reconciliation document (unnamed/part_000 lines 59-73):
`onClick = () => setCount(count + 1)`. -/
def counterClick (count : Nat) : Nat := count + 1

/-- WithUseMemo, the useMemo demo (hooks/useContext md, second part):
`onClick = () => setCount(count + 1)`. -/
def withUseMemoClick (count : Nat) : Nat := count + 1

/-- Parent, the useCallback demo (hooks/useCallback md, section 3):
`onClick = () => setCount(count + 1)`. -/
def parentIncrementClick (count : Nat) : Nat := count + 1

/-- Search.handleChange of the useCallback document (lines 140-145):
`setQuery(e.target.value)` from the input onChange. -/
def searchHandleChange (_query : String) (inputValue : String) : String :=
  inputValue

/-- Using_Inline_Style: `onClick = () => setIsActive(!isActive)`. -/
def inlineStyleClick (isActive : Bool) : Bool := !isActive

/-- Using_CSS_Classes (lines 4-16): `onClick = () => setIsDark(!isDark)`. -/
def cssClassesClick (isDark : Bool) : Bool := !isDark

/-- Using_CSS_Modules: `onClick = () => setIsSuccess(!isSuccess)`. -/
def cssModulesClick (isSuccess : Bool) : Bool := !isSuccess

/-- Using_Styled_Components: `onClick = () => setPrimary(!primary)`. -/
def styledComponentsClick (primary : Bool) : Bool := !primary

/-- Using_Emotion: `onClick = () => setIsActive(!isActive)`. -/
def emotionClick (isActive : Bool) : Bool := !isActive

/-! ## Further state and handlers named by the claims. -/

/-- The form state of ControlledForm in Ans-6.md lines 21-57: an object
with the fields name and email, both starting empty. -/
structure FormData where
  name : String
  email : String
deriving DecidableEq, Repr

def formDataInitial : FormData := { name := "", email := "" }

/-- The handleChange of ControlledForm (Ans-6.md lines 26-28):
`setFormData(...formData, [e.target.name]: e.target.value)`, a computed
property key; the two inputs of the form carry name="name" and
name="email". -/
def controlledFormHandleChange (fd : FormData) (field value : String) :
    FormData :=
  if field = "name" then { fd with name := value }
  else if field = "email" then { fd with email := value }
  else fd

/-- The error field of the doubts-variant reducer of redux-thunk.md
(lines 268-299) starts as null and later holds a string message. -/
inductive ErrorValue
  | null
  | message (s : String)
deriving DecidableEq, Repr

/-- The doubts-variant store state of redux-thunk.md lines 268-272:
loading false, data [], error null. -/
structure DataStateVariant where
  loading : Bool
  data : List Item
  error : ErrorValue
deriving DecidableEq, Repr

def initialStateVariant : DataStateVariant :=
  { loading := false, data := [], error := .null }

/-- The setInterval callback of Timer in Ans-5.md lines 127-129:
`setTime(prev => prev + 1)` once a second while the timer runs. -/
def timerTick (time : Nat) : Nat := time + 1

/-! ## Syntactic enumeration of the handlers and operations of the corpus
Each entry records, straight off the source text: the event that runs it,
whether it updates React (or store) state, whether it is an async function
containing await, and whether it has an error branch (a try/catch or a
dispatch of a failure action). Re-quotes of the same component inside one
document, and the verbatim duplicates of the context-api sources in
context-api/README.md and of the five CSS components in the
ways-to-manipulate README, are listed once. -/

/-- The kind of event that runs a handler or operation. -/
inductive Trigger
  | buttonClick
  | inputChange
  | formSubmit
  | effectCallback
  | intervalTick
  | httpRequest
  | fetchEvent
  | scriptRun
deriving DecidableEq, Repr

/-- A handler or operation of the corpus. -/
structure Handler where
  hname : String
  trigger : Trigger
  updatesState : Bool
  isAsync : Bool
  hasErrorBranch : Bool
deriving DecidableEq, Repr

/-- All handlers and operations appearing in the example code of the
corpus, in source order: the context-api components (plus the class-based
variant of the useContext document), the reconciliation document
(unnamed/part_000), the useMemo and useCallback documents, the six
CSS-toggling demos and the useRef styling handlers of the
ways-to-manipulate material, the doubts-and-solutions examples (Ans-2,
Ans-3, Ans-5, Ans-6, Ans-7), the declarative-UI demos of the babel
comparison document, and the redux-thunk example. -/
def handlers : List Handler :=
  [ -- context-api jsx sources, duplicated verbatim in context-api/README.md
    { hname := "ThemedButton.onClick", trigger := .buttonClick,
      updatesState := true, isAsync := false, hasErrorBranch := false },
    { hname := "AuthButton.onClick", trigger := .buttonClick,
      updatesState := true, isAsync := false, hasErrorBranch := false },
    -- class-based ThemedButton, useContext md lines 52-70
    { hname := "ClassThemedButton.onClick", trigger := .buttonClick,
      updatesState := true, isAsync := false, hasErrorBranch := false },
    -- reconciliation document, unnamed/part_000
    { hname := "Part0.imperativeCounter.listener", trigger := .buttonClick,
      updatesState := true, isAsync := false, hasErrorBranch := false },
    { hname := "Part0.Counter.onClick", trigger := .buttonClick,
      updatesState := true, isAsync := false, hasErrorBranch := false },
    { hname := "Part0.ToggleSameType.onClick", trigger := .buttonClick,
      updatesState := true, isAsync := false, hasErrorBranch := false },
    { hname := "Part0.ToggleDiffType.onClick", trigger := .buttonClick,
      updatesState := true, isAsync := false, hasErrorBranch := false },
    { hname := "Part0.MemoApp.onClick", trigger := .buttonClick,
      updatesState := true, isAsync := false, hasErrorBranch := false },
    -- useMemo document (second part of the useContext md)
    { hname := "WithoutUseMemo.onClick", trigger := .buttonClick,
      updatesState := true, isAsync := false, hasErrorBranch := false },
    { hname := "WithUseMemo.onClick", trigger := .buttonClick,
      updatesState := true, isAsync := false, hasErrorBranch := false },
    { hname := "WithoutUseMemoFilter.onChange", trigger := .inputChange,
      updatesState := true, isAsync := false, hasErrorBranch := false },
    { hname := "WithUseMemoFilter.onChange", trigger := .inputChange,
      updatesState := true, isAsync := false, hasErrorBranch := false },
    -- useCallback document
    { hname := "ParentNoCallback.onClick", trigger := .buttonClick,
      updatesState := true, isAsync := false, hasErrorBranch := false },
    { hname := "Child.onClick", trigger := .buttonClick,
      updatesState := false, isAsync := false, hasErrorBranch := false },
    { hname := "Parent.onClick", trigger := .buttonClick,
      updatesState := true, isAsync := false, hasErrorBranch := false },
    { hname := "Search.handleChange", trigger := .inputChange,
      updatesState := true, isAsync := false, hasErrorBranch := false },
    -- ways-to-manipulate components (also quoted in its README)
    { hname := "Using_Inline_Style.onClick", trigger := .buttonClick,
      updatesState := true, isAsync := false, hasErrorBranch := false },
    { hname := "Using_CSS_Classes.onClick", trigger := .buttonClick,
      updatesState := true, isAsync := false, hasErrorBranch := false },
    { hname := "Using_CSS_Modules.onClick", trigger := .buttonClick,
      updatesState := true, isAsync := false, hasErrorBranch := false },
    { hname := "Using_Styled_Components.onClick", trigger := .buttonClick,
      updatesState := true, isAsync := false, hasErrorBranch := false },
    { hname := "Using_Tailwind_CSS.onClick", trigger := .buttonClick,
      updatesState := true, isAsync := false, hasErrorBranch := false },
    { hname := "Using_Emotion.onClick", trigger := .buttonClick,
      updatesState := true, isAsync := false, hasErrorBranch := false },
    -- useRef styling handlers of the ways-to-manipulate README, section B
    { hname := "RefStyle.changeStyle", trigger := .buttonClick,
      updatesState := false, isAsync := false, hasErrorBranch := false },
    { hname := "RefStyle.toggleClass", trigger := .buttonClick,
      updatesState := false, isAsync := false, hasErrorBranch := false },
    -- doubts-and-solutions, Ans-3.md lines 78-92
    { hname := "Ans3.App.onClick", trigger := .buttonClick,
      updatesState := true, isAsync := false, hasErrorBranch := false },
    -- doubts-and-solutions, Ans-5.md
    { hname := "Ans5.FocusInput.useEffect", trigger := .effectCallback,
      updatesState := false, isAsync := false, hasErrorBranch := false },
    { hname := "Ans5.PreviousStateExample.onClick", trigger := .buttonClick,
      updatesState := true, isAsync := false, hasErrorBranch := false },
    { hname := "Ans5.PreviousStateExample.useEffect", trigger := .effectCallback,
      updatesState := false, isAsync := false, hasErrorBranch := false },
    { hname := "Ans5.RenderCounter.onClick", trigger := .buttonClick,
      updatesState := true, isAsync := false, hasErrorBranch := false },
    { hname := "Ans5.RenderCounter.useEffect", trigger := .effectCallback,
      updatesState := false, isAsync := false, hasErrorBranch := false },
    { hname := "Ans5.Timer.startTimer", trigger := .buttonClick,
      updatesState := false, isAsync := false, hasErrorBranch := false },
    { hname := "Ans5.Timer.intervalTick", trigger := .intervalTick,
      updatesState := true, isAsync := false, hasErrorBranch := false },
    { hname := "Ans5.Timer.stopTimer", trigger := .buttonClick,
      updatesState := false, isAsync := false, hasErrorBranch := false },
    { hname := "Ans5.ScrollExample.onClick", trigger := .buttonClick,
      updatesState := false, isAsync := false, hasErrorBranch := false },
    { hname := "Ans5.CanvasDrawing.useEffect", trigger := .effectCallback,
      updatesState := false, isAsync := false, hasErrorBranch := false },
    -- doubts-and-solutions, Ans-6.md
    { hname := "Ans6.ControlledForm.handleChange", trigger := .inputChange,
      updatesState := true, isAsync := false, hasErrorBranch := false },
    { hname := "Ans6.ControlledForm.handleSubmit", trigger := .formSubmit,
      updatesState := false, isAsync := false, hasErrorBranch := false },
    { hname := "Ans6.HybridForm.onChange", trigger := .inputChange,
      updatesState := true, isAsync := false, hasErrorBranch := false },
    { hname := "Ans6.HybridForm.handleSubmit", trigger := .formSubmit,
      updatesState := false, isAsync := false, hasErrorBranch := false },
    -- doubts-and-solutions, Ans-7.md
    { hname := "Ans7.ControlledForm.handleChange", trigger := .inputChange,
      updatesState := true, isAsync := false, hasErrorBranch := false },
    { hname := "Ans7.ControlledForm.handleSubmit", trigger := .formSubmit,
      updatesState := false, isAsync := false, hasErrorBranch := false },
    { hname := "Ans7.UncontrolledForm.handleSubmit", trigger := .formSubmit,
      updatesState := false, isAsync := false, hasErrorBranch := false },
    { hname := "Ans7.HybridForm.onChange", trigger := .inputChange,
      updatesState := true, isAsync := false, hasErrorBranch := false },
    { hname := "Ans7.HybridForm.handleSubmit", trigger := .formSubmit,
      updatesState := false, isAsync := false, hasErrorBranch := false },
    -- doubts-and-solutions, Ans-2.md: the Express products route with
    -- awaits of Redis and the DB (lines 171-178), the cart-sync snippet
    -- with await axios.post (lines 192-197), the service-worker fetch
    -- listener chaining promises with then (lines 211-215)
    { hname := "Ans2.productsRoute", trigger := .httpRequest,
      updatesState := false, isAsync := true, hasErrorBranch := false },
    { hname := "Ans2.cartSync", trigger := .scriptRun,
      updatesState := false, isAsync := true, hasErrorBranch := false },
    { hname := "Ans2.serviceWorkerFetch", trigger := .fetchEvent,
      updatesState := false, isAsync := false, hasErrorBranch := false },
    -- declarative-UI demos of babel-Vs-webpack-Vs-ESBuild-Vs-parcel.md
    { hname := "Babel.imperativeCounter.listener", trigger := .buttonClick,
      updatesState := true, isAsync := false, hasErrorBranch := false },
    { hname := "Babel.Counter.onClick", trigger := .buttonClick,
      updatesState := true, isAsync := false, hasErrorBranch := false },
    { hname := "Babel.App.logoutClick", trigger := .buttonClick,
      updatesState := true, isAsync := false, hasErrorBranch := false },
    { hname := "Babel.App.loginClick", trigger := .buttonClick,
      updatesState := true, isAsync := false, hasErrorBranch := false },
    -- redux-thunk example
    { hname := "ReduxApp.useEffect", trigger := .effectCallback,
      updatesState := true, isAsync := false, hasErrorBranch := false },
    { hname := "fetchData", trigger := .effectCallback,
      updatesState := true, isAsync := true, hasErrorBranch := true } ]

/-! ## Enumeration of the state pieces of the corpus with their JS types,
read off each useState initial value and the redux initialState. -/

/-- The JS type a state piece holds over the life of the example:
a primitive boolean, number or string, a list, an object with several
fields, or a value that starts as null and later holds a string. -/
inductive StateType
  | boolType
  | numberType
  | stringType
  | listType
  | objectType
  | nullOrStringType
deriving DecidableEq, Repr

/-- A piece of state declared in the corpus. -/
structure StatePiece where
  pname : String
  component : String
  stype : StateType
deriving DecidableEq, Repr

def StateType.isPrimitive : StateType → Bool
  | .boolType => true
  | .numberType => true
  | .stringType => true
  | .listType => false
  | .objectType => false
  | .nullOrStringType => false

/-- All state pieces declared by the examples of the corpus, in the same
source order as the handler enumeration: every useState of every example
(the class-based provider state included), and the fields of the two
redux-thunk store states (the Step-3 reducer and the doubts-section
variant whose error field starts as null). Verbatim README duplicates are
listed once. -/
def statePieces : List StatePiece :=
  [ { pname := "theme", component := "ThemeProvider", stype := .stringType },
    { pname := "isAuthenticated", component := "AuthProvider", stype := .boolType },
    { pname := "theme", component := "ClassThemeProvider", stype := .stringType },
    { pname := "count", component := "Part0.Counter", stype := .numberType },
    { pname := "isVisible", component := "Part0.ToggleSameType", stype := .boolType },
    { pname := "isVisible", component := "Part0.ToggleDiffType", stype := .boolType },
    { pname := "count", component := "Part0.MemoApp", stype := .numberType },
    { pname := "count", component := "WithoutUseMemo", stype := .numberType },
    { pname := "number", component := "WithoutUseMemo", stype := .numberType },
    { pname := "count", component := "WithUseMemo", stype := .numberType },
    { pname := "number", component := "WithUseMemo", stype := .numberType },
    { pname := "query", component := "WithoutUseMemoFilter", stype := .stringType },
    { pname := "query", component := "WithUseMemoFilter", stype := .stringType },
    { pname := "count", component := "ParentNoCallback", stype := .numberType },
    { pname := "count", component := "Parent", stype := .numberType },
    { pname := "query", component := "Search", stype := .stringType },
    { pname := "isActive", component := "Using_Inline_Style", stype := .boolType },
    { pname := "isDark", component := "Using_CSS_Classes", stype := .boolType },
    { pname := "isSuccess", component := "Using_CSS_Modules", stype := .boolType },
    { pname := "primary", component := "Using_Styled_Components", stype := .boolType },
    { pname := "isActive", component := "Using_Tailwind_CSS", stype := .boolType },
    { pname := "isActive", component := "Using_Emotion", stype := .boolType },
    { pname := "text", component := "Ans3.App", stype := .stringType },
    { pname := "count", component := "Ans5.PreviousStateExample", stype := .numberType },
    { pname := "count", component := "Ans5.RenderCounter", stype := .numberType },
    { pname := "time", component := "Ans5.Timer", stype := .numberType },
    { pname := "formData", component := "Ans6.ControlledForm", stype := .objectType },
    { pname := "name", component := "Ans6.HybridForm", stype := .stringType },
    { pname := "name", component := "Ans7.ControlledForm", stype := .stringType },
    { pname := "name", component := "Ans7.HybridForm", stype := .stringType },
    { pname := "count", component := "Babel.Counter", stype := .numberType },
    { pname := "isLoggedIn", component := "Babel.App", stype := .boolType },
    { pname := "loading", component := "dataReducer", stype := .boolType },
    { pname := "data", component := "dataReducer", stype := .listType },
    { pname := "error", component := "dataReducer", stype := .stringType },
    { pname := "loading", component := "dataReducerVariant", stype := .boolType },
    { pname := "data", component := "dataReducerVariant", stype := .listType },
    { pname := "error", component := "dataReducerVariant", stype := .nullOrStringType } ]

/-! ## The spec claims as propositions. -/

/-- Claim C2 as a proposition: no handler of the corpus has an error
branch, and running the fetchData thunk never changes the error field of
the store state. -/
def noErrorHandlingAnywhere : Prop :=
  ((handlers.all fun h => !h.hasErrorBranch) = true) ∧
  ∀ o s, (fetchData o s).error = s.error

/-- Claim C3 as a proposition: for every component the spec names, a
second click restores the state the component held before the first. -/
def clickTwiceRestoresState : Prop :=
  (∀ t, ReachableTheme t → toggleTheme (toggleTheme t) = t) ∧
  (∀ b, authButtonClick (authButtonClick b) = b) ∧
  (∀ n, counterClick (counterClick n) = n) ∧
  (∀ n, withUseMemoClick (withUseMemoClick n) = n) ∧
  (∀ n, parentIncrementClick (parentIncrementClick n) = n) ∧
  (∀ b, inlineStyleClick (inlineStyleClick b) = b) ∧
  (∀ b, cssClassesClick (cssClassesClick b) = b) ∧
  (∀ b, cssModulesClick (cssModulesClick b) = b) ∧
  (∀ b, styledComponentsClick (styledComponentsClick b) = b) ∧
  (∀ b, emotionClick (emotionClick b) = b)

/-- Claim C4 as a proposition: every state piece of the corpus holds a
primitive boolean, number or string. -/
def allStatePrimitive : Prop :=
  (statePieces.all fun p => p.stype.isPrimitive) = true

/-- Claim C5 as a proposition: every handler of the corpus that updates
state is triggered by a button onClick. -/
def allUpdatesFromClicks : Prop :=
  (handlers.all fun h =>
    !h.updatesState || decide (h.trigger = Trigger.buttonClick)) = true

/-- Claim C6 as a proposition: no handler or operation of the corpus is
an async function awaiting an asynchronous result. -/
def allHandlersSynchronous : Prop :=
  (handlers.all fun h => !h.isAsync) = true

/-! ## Helper lemmas shared by several claims. -/

/-- Every reachable theme value is the string light or the string dark. -/
theorem reachableTheme_mem (t : String) (h : ReachableTheme t) :
    t = "light" ∨ t = "dark" := by
  induction h with
  | init => exact Or.inl rfl
  | toggle u _ ih => rcases ih with h1 | h1 <;> subst h1 <;> decide

/-- On reachable theme values, two toggles restore the previous theme. -/
theorem toggleTheme_involutive (t : String) (h : ReachableTheme t) :
    toggleTheme (toggleTheme t) = t := by
  rcases reachableTheme_mem t h with h1 | h1 <;> subst h1 <;> decide

/-! ## Claim C1 (corrected). -/

/-- Claim C1 counterexample: the spec sentence that no click changes state
observed by a component in another file is false. The click of
ThemedButton (ThemedButton.jsx) changes what Navbar (Navbar.jsx) renders
from the initial app state, via the theme state of the ThemeContext
file. -/
theorem crossFileIsolation_refuted : ¬ crossFileIsolation := fun h =>
  absurd (h Component.themedButton Component.navbar (by decide) appInitial)
    (by decide)

/-- Claim C1 amended: cross-file state sharing does occur through the
context providers. ThemedButton and Navbar live in different files, the
theme state is declared in yet another file (ThemeContext), and a click
on ThemedButton changes the render of Navbar; likewise a click on
AuthButton changes the render of Navbar. -/
theorem crossFileSharing_amended :
    Component.themedButton.file ≠ Component.navbar.file ∧
    StateVar.themeVar.declaredIn ≠ Component.themedButton.file ∧
    StateVar.themeVar.declaredIn ≠ Component.navbar.file ∧
    renderComponent Component.navbar
        (clickComponent Component.themedButton appInitial) ≠
      renderComponent Component.navbar appInitial ∧
    Component.authButton.file ≠ Component.navbar.file ∧
    renderComponent Component.navbar
        (clickComponent Component.authButton appInitial) ≠
      renderComponent Component.navbar appInitial := by
  decide

/-! ## Claim C2 (corrected). -/

/-- Claim C2 counterexample: the spec sentence that no example has an
error or failure branch is false. The fetchData thunk of the redux-thunk
example, run on a failed fetch with message Network Error, stores that
message in the error field of the store state, which was empty before. -/
theorem noErrorHandling_refuted : ¬ noErrorHandlingAnywhere := fun h =>
  absurd (h.2 (FetchOutcome.failure "Network Error") initialState)
    (by decide)

/-- Claim C2 amended: every handler and operation of the corpus is
happy-path except the redux-thunk fetchData thunk, the only one with an
error branch: it catches the fetch exception and dispatches
FETCH_DATA_FAILURE with the message; the reducer stores the message in
state.error (clearing loading and data), and a successful fetch leaves
error empty. -/
theorem errorHandling_amended :
    ((handlers.filter fun h => h.hasErrorBranch).map Handler.hname
      = ["fetchData"]) ∧
    (∀ m s, (fetchData (FetchOutcome.failure m) s).error = m) ∧
    (∀ m s, (fetchData (FetchOutcome.failure m) s).loading = false ∧
      (fetchData (FetchOutcome.failure m) s).data = []) ∧
    (∀ d s, (fetchData (FetchOutcome.success d) s).error = "") :=
  ⟨by decide, fun _ _ => rfl, fun _ _ => ⟨rfl, rfl⟩, fun _ _ => rfl⟩

/-! ## Claim C3 (corrected). -/

/-- Claim C3 counterexample: the spec sentence that every named demo click
handler is a flip (two clicks restore the state) is false. The Counter
click handler increments: from count 0, two clicks give 2, not 0. -/
theorem clickTwiceRestores_refuted : ¬ clickTwiceRestoresState := fun h =>
  absurd (h.2.2.1 0) (by decide)

/-- Claim C3 amended: the click handlers of ThemedButton (on reachable
themes), AuthButton and the five CSS-toggling demos are flips of a
primitive, so two clicks restore the state; the Counter, useMemo demo and
useCallback demo handlers instead increment a counter, so two clicks add
two. -/
theorem clickHandlers_amended :
    (∀ t, ReachableTheme t → toggleTheme (toggleTheme t) = t) ∧
    (∀ b, authButtonClick (authButtonClick b) = b) ∧
    (∀ b, inlineStyleClick (inlineStyleClick b) = b) ∧
    (∀ b, cssClassesClick (cssClassesClick b) = b) ∧
    (∀ b, cssModulesClick (cssModulesClick b) = b) ∧
    (∀ b, styledComponentsClick (styledComponentsClick b) = b) ∧
    (∀ b, emotionClick (emotionClick b) = b) ∧
    (∀ n, counterClick (counterClick n) = n + 2) ∧
    (∀ n, withUseMemoClick (withUseMemoClick n) = n + 2) ∧
    (∀ n, parentIncrementClick (parentIncrementClick n) = n + 2) := by
  refine ⟨toggleTheme_involutive, ?_, ?_, ?_, ?_, ?_, ?_,
    fun n => rfl, fun n => rfl, fun n => rfl⟩ <;>
    intro b <;> cases b <;> rfl

/-- Witness for the amended claim C3, at the initial theme and count 0. -/
theorem clickHandlers_amended_witness :
    toggleTheme (toggleTheme "light") = "light" ∧
    counterClick (counterClick 0) = 2 :=
  ⟨clickHandlers_amended.1 "light" ReachableTheme.init,
   clickHandlers_amended.2.2.2.2.2.2.2.1 0⟩

/-! ## Claim C4 (corrected). -/

/-- Claim C4 counterexample: the spec sentence that every piece of state
is a primitive boolean, counter or string is false. The data field of
the redux-thunk store state is a list. -/
theorem allStatePrimitive_refuted : ¬ allStatePrimitive := by
  unfold allStatePrimitive
  decide

/-- Claim C4 amended: every state piece of the corpus is a primitive
boolean, number or string, except the formData object of the Ans-6
controlled form (a record with name and email fields, both initially
empty), the data fields of the two redux-thunk store states (lists,
initially empty, set to the fetched payload on success), and the error
field of the doubts-variant store state, which starts as null. -/
theorem statePieces_amended :
    ((statePieces.filter fun p => !p.stype.isPrimitive).map StatePiece.pname
      = ["formData", "data", "data", "error"]) ∧
    formDataInitial = { name := "", email := "" } ∧
    (∀ fd v, controlledFormHandleChange fd "name" v =
      { name := v, email := fd.email }) ∧
    (∀ fd v, controlledFormHandleChange fd "email" v =
      { name := fd.name, email := v }) ∧
    initialState.data = [] ∧
    (∀ s p, (dataReducer s (.fetchDataSuccess p)).data = p) ∧
    initialStateVariant.error = ErrorValue.null :=
  ⟨by decide, rfl, fun fd v => by simp [controlledFormHandleChange],
   fun fd v => by simp [controlledFormHandleChange],
   rfl, fun _ _ => rfl, rfl⟩

/-! ## Claim C5 (corrected). -/

/-- Claim C5 counterexample: the spec sentence that every state update is
wired to a button click is false. The handleChange of the Search example
updates query from an input onChange, not from a click. -/
theorem allUpdatesFromClicks_refuted : ¬ allUpdatesFromClicks := by
  unfold allUpdatesFromClicks
  decide

/-- Claim C5 amended: every state-updating handler of the corpus is
triggered by a button onClick, except the input onChange handlers (the
two useMemo filtering demos, Search, and the Ans-6 and Ans-7 forms), the
setInterval callback of the Ans-5 Timer, and the redux-thunk App
useEffect with the fetchData thunk it dispatches on mount. -/
theorem updateTriggers_amended :
    ((handlers.filter fun h =>
        h.updatesState && !(decide (h.trigger = Trigger.buttonClick))).map
        Handler.hname
      = ["WithoutUseMemoFilter.onChange", "WithUseMemoFilter.onChange",
         "Search.handleChange", "Ans5.Timer.intervalTick",
         "Ans6.ControlledForm.handleChange", "Ans6.HybridForm.onChange",
         "Ans7.ControlledForm.handleChange", "Ans7.HybridForm.onChange",
         "ReduxApp.useEffect", "fetchData"]) ∧
    searchHandleChange "" "abc" = "abc" ∧
    (∀ t, timerTick t = t + 1) :=
  ⟨by decide, rfl, fun _ => rfl⟩

/-! ## Claim C6 (corrected). -/

/-- Claim C6 counterexample: the spec sentence that all execution in the
corpus is synchronous is false. The fetchData thunk of the redux-thunk
example is an async function that awaits fetch and response.json. -/
theorem allHandlersSynchronous_refuted : ¬ allHandlersSynchronous := by
  unfold allHandlersSynchronous
  decide

/-- Claim C6 amended: every handler and operation of the corpus is
synchronous except three async functions containing await: the Ans-2
Express products route (awaiting Redis and the database), the Ans-2
cart-sync snippet (awaiting axios.post), and the redux-thunk fetchData
thunk (awaiting fetch and response.json). The Ans-2 service-worker
listener chains promises with then and is neither declared async nor
awaits. -/
theorem asyncHandlers_amended :
    ((handlers.filter fun h => h.isAsync).map Handler.hname
      = ["Ans2.productsRoute", "Ans2.cartSync", "fetchData"]) ∧
    ((handlers.all fun h => !h.isAsync || (h.hname == "Ans2.productsRoute") ||
        (h.hname == "Ans2.cartSync") || (h.hname == "fetchData")) = true) :=
  ⟨by decide, by decide⟩

/-! ## Claim C7 (confirmed). -/

/-- Claim C7: in the AuthContext demo, isAuthenticated starts false; login
always leaves it true and logout always leaves it false, and both are
idempotent; a click on AuthButton negates isAuthenticated; and the label
is Logout exactly when isAuthenticated is true. -/
theorem authContext_correct :
    authInitial = false ∧
    (∀ b, login b = true ∧ logout b = false ∧
      login (login b) = login b ∧ logout (logout b) = logout b) ∧
    (∀ b, authButtonClick b = !b) ∧
    (∀ b, authButtonLabel b = "Logout" ↔ b = true) := by
  refine ⟨rfl, fun b => ⟨rfl, rfl, rfl, rfl⟩, fun b => ?_, fun b => ?_⟩ <;>
    cases b <;> decide

/-! ## Claim C8 (confirmed). -/

/-- Claim C8: the theme starts as light, every reachable theme value is
light or dark, toggleTheme preserves that two-element set, and on
reachable values toggleTheme is an involution. -/
theorem theme_invariant :
    themeInitial = "light" ∧
    (∀ t, ReachableTheme t → t = "light" ∨ t = "dark") ∧
    (∀ t, t = "light" ∨ t = "dark" →
      toggleTheme t = "light" ∨ toggleTheme t = "dark") ∧
    (∀ t, ReachableTheme t → toggleTheme (toggleTheme t) = t) := by
  refine ⟨rfl, reachableTheme_mem, ?_, toggleTheme_involutive⟩
  intro t h
  rcases h with h1 | h1 <;> subst h1 <;> decide

/-- Witness for claim C8, at the initial theme. -/
theorem theme_invariant_witness :
    (themeInitial = "light" ∨ themeInitial = "dark") ∧
    toggleTheme (toggleTheme themeInitial) = themeInitial :=
  ⟨theme_invariant.2.1 themeInitial ReachableTheme.init,
   theme_invariant.2.2.2 themeInitial ReachableTheme.init⟩

/-! ## Claim C9 (confirmed). -/

/-- Claim C9: dataReducer is total and returns the state unchanged on any
action whose type is none of the three fetch action types;
FETCH_DATA_REQUEST changes only loading (to true); FETCH_DATA_SUCCESS
sets loading false, data to the payload and error to the empty string;
FETCH_DATA_FAILURE sets loading false, data to the empty list and error
to the payload. -/
theorem dataReducer_total_and_framed :
    (∀ s a, Action.type a ≠ FETCH_DATA_REQUEST →
      Action.type a ≠ FETCH_DATA_SUCCESS →
      Action.type a ≠ FETCH_DATA_FAILURE → dataReducer s a = s) ∧
    (∀ s, dataReducer s .fetchDataRequest =
      { loading := true, data := s.data, error := s.error }) ∧
    (∀ s p, dataReducer s (.fetchDataSuccess p) =
      { loading := false, data := p, error := "" }) ∧
    (∀ s p, dataReducer s (.fetchDataFailure p) =
      { loading := false, data := [], error := p }) := by
  refine ⟨?_, fun s => rfl, fun s p => rfl, fun s p => rfl⟩
  intro s a h1 h2 h3
  cases a with
  | fetchDataRequest => exact absurd rfl h1
  | fetchDataSuccess p => exact absurd rfl h2
  | fetchDataFailure p => exact absurd rfl h3
  | other t => rfl

/-- Witness for claim C9: an action with an unknown type string leaves the
initial state unchanged. -/
theorem dataReducer_total_witness :
    dataReducer initialState (Action.other "RESET") = initialState :=
  dataReducer_total_and_framed.1 initialState (Action.other "RESET")
    (by decide) (by decide) (by decide)

end ReactTopics
